import Mathlib

/-!
Verification development for the DevOps Social post service
(`src/backend/main.py`): a FastAPI application over a single Postgres
table `posts(id SERIAL PRIMARY KEY, username VARCHAR(100), content TEXT,
created_at TIMESTAMP DEFAULT CURRENT_TIMESTAMP)` with four handlers:
`read_root` (GET /), `get_posts` (GET /posts), `create_post` (POST /posts)
and `get_stats` (GET /stats), plus a `startup` hook that creates the table
if it does not exist.

The embedding models the database as a list of rows plus the SERIAL
counter, timestamps as abstract clock ticks (natural numbers, serialized
with `toString` where the source calls `str(...)`), request bodies as
JSON field lists, and the Postgres semantics of the three SQL statements
the source executes (ORDER BY created_at DESC LIMIT 50, INSERT RETURNING
id with the VARCHAR(100) length constraint, COUNT(*)).
-/

/-- JSON scalar values, sufficient to model the request bodies this
service receives. -/
inductive JsonVal where
  | str (s : String)
  | num (n : Int)
  | bool (b : Bool)
  | null
deriving Repr, DecidableEq

/-- A JSON object body: an association list of field names to values. -/
abbrev JsonBody := List (String × JsonVal)

/-- Field lookup in a JSON object body (first occurrence wins). -/
def lookupField : JsonBody → String → Option JsonVal
  | [], _ => none
  | (k, v) :: rest, key => if k = key then some v else lookupField rest key

/-- The pydantic request model from the source:
`class Post(BaseModel): username: str; content: str`. -/
structure Post where
  username : String
  content : String
deriving Repr, DecidableEq

/-- Whether an optional JSON value is a present string — the condition the
declared `Post` model imposes on each of its two fields. -/
def isStrField : Option JsonVal → Bool
  | some (JsonVal.str _) => true
  | _ => false

/-- Request validation of the `Post` model as FastAPI/pydantic performs it
for the declared field types: both `username` and `content` must be
present and carry string values; otherwise the request is rejected with a
client validation error before the handler body (and hence any storage
access) runs. -/
def validatePost (body : JsonBody) : Option Post :=
  match lookupField body "username", lookupField body "content" with
  | some (JsonVal.str u), some (JsonVal.str c) => some ⟨u, c⟩
  | _, _ => none

/-- A stored row of the `posts` table. `created_at` is the insertion
timestamp, modelled as an abstract clock tick. -/
structure Row where
  id : Nat
  username : String
  content : String
  created_at : Nat
deriving Repr, DecidableEq

/-- The database state: whether the `posts` table exists, its rows in
insertion order, and the next value of the SERIAL `id` sequence. -/
structure DB where
  tableExists : Bool
  rows : List Row
  nextId : Nat
deriving Repr, DecidableEq

/-- A database in which the `posts` table has never been created. -/
def freshDB : DB := ⟨false, [], 1⟩

/-- The startup hook: executes
`CREATE TABLE IF NOT EXISTS posts (...)` — creates an empty table with a
fresh SERIAL sequence when absent, and leaves the state untouched when
the table already exists. -/
def startup (db : DB) : DB :=
  if db.tableExists then db else { tableExists := true, rows := [], nextId := 1 }

/-- The static message returned by GET `/`. -/
def read_root_message : String := "🐳 DevOps Social API is live!"

/-- Errors raised by the storage layer and surfaced as server errors. -/
inductive DBError where
  | missingTable
  | valueTooLong
deriving Repr, DecidableEq

/-- Descending order on `created_at`: the comparison used by
`ORDER BY created_at DESC`. -/
def descLe (a b : Row) : Prop := b.created_at ≤ a.created_at

instance : DecidableRel descLe := fun a b => Nat.decLe b.created_at a.created_at

instance : IsTotal Row descLe := ⟨fun a b => Nat.le_total b.created_at a.created_at⟩

instance : IsTrans Row descLe := ⟨fun _ _ _ h h₂ => Nat.le_trans h₂ h⟩

/-- Result set of
`SELECT id, username, content, created_at FROM posts ORDER BY created_at DESC LIMIT 50`:
the rows sorted newest-first by `created_at`, truncated to 50. -/
def selectPosts (rows : List Row) : List Row :=
  (List.insertionSort descLe rows).take 50

/-- One element of the JSON array returned by GET `/posts`: the handler
copies `id`, `username` and `content` and serializes `created_at` with
`str(...)`. -/
structure RenderedPost where
  id : Nat
  username : String
  content : String
  created_at : String
deriving Repr, DecidableEq

/-- Rendering of one fetched row into the response dictionary built in the
`get_posts` loop. -/
def renderPost (r : Row) : RenderedPost :=
  { id := r.id, username := r.username, content := r.content,
    created_at := toString r.created_at }

/-- The GET `/posts` handler: runs the SELECT above and renders each row;
fails if the table does not exist (the SELECT raises). -/
def get_posts (db : DB) : Except DBError (List RenderedPost) :=
  if db.tableExists then
    Except.ok ((selectPosts db.rows).map renderPost)
  else
    Except.error DBError.missingTable

/-- Assignment of a string to a `VARCHAR(n)` column per PostgreSQL
character-type semantics (§8.3 Character Types): a value within the
declared width is stored as is; an over-length value whose excess
characters are all spaces is silently truncated to `n` characters; any
other over-length value raises a value-too-long error. -/
def varcharCast (n : Nat) (s : String) : Except DBError String :=
  if s.length ≤ n then
    Except.ok s
  else if (s.data.drop n).all (fun ch => ch == ' ') then
    Except.ok (String.mk (s.data.take n))
  else
    Except.error DBError.valueTooLong

/-- Semantics of
`INSERT INTO posts (username, content) VALUES (%s, %s) RETURNING id`:
fails if the table is absent or if the `VARCHAR(100)` assignment of
`username` raises; otherwise appends one row carrying the stored
(possibly space-truncated) username, the next SERIAL id and the current
storage timestamp, returning the new state and the assigned id. The
model leaves the SERIAL sequence untouched on a failed INSERT; a real
failed INSERT may consume a sequence value, producing id gaps, but ids
stay strictly increasing either way and no property below depends on
gaplessness. -/
def insertPost (db : DB) (username content : String) (now : Nat) :
    Except DBError (DB × Nat) :=
  if db.tableExists then
    match varcharCast 100 username with
    | Except.error e => Except.error e
    | Except.ok stored =>
      let row : Row := ⟨db.nextId, stored, content, now⟩
      Except.ok ({ db with rows := db.rows ++ [row], nextId := db.nextId + 1 }, db.nextId)
  else
    Except.error DBError.missingTable

/-- The POST `/posts` handler body, after validation has produced a
`Post`: executes the INSERT at the current storage clock `now`. -/
def create_post (p : Post) (now : Nat) (db : DB) : Except DBError (DB × Nat) :=
  insertPost db p.username p.content now

/-- The response of GET `/stats`. -/
structure StatsResponse where
  total_posts : Nat
  docker_magic : String
deriving Repr, DecidableEq

/-- The GET `/stats` handler: runs `SELECT COUNT(*) FROM posts` and pairs
the count with the constant decorative field. -/
def get_stats (db : DB) : Except DBError StatsResponse :=
  if db.tableExists then
    Except.ok ⟨db.rows.length, "🐳✨"⟩
  else
    Except.error DBError.missingTable

/-- An HTTP request to one of the four routes. `createPost` carries the
raw JSON body and the storage clock at which the INSERT would run. -/
inductive Req where
  | root
  | listPosts
  | createPost (body : JsonBody) (now : Nat)
  | stats
deriving Repr

/-- An HTTP response of the service. -/
inductive Response where
  | rootMsg (message : String)
  | postsList (posts : List RenderedPost)
  | created (id : Nat) (message : String)
  | statsResp (total_posts : Nat) (docker_magic : String)
  | validationError
  | serverError
deriving Repr, DecidableEq

/-- One request/response round trip of the service: routes the request,
performs FastAPI validation for POST `/posts` before the handler body
runs, executes the handler, and maps storage errors to a generic server
error. Returns the post-state and the response. -/
def step (db : DB) : Req → DB × Response
  | Req.root => (db, Response.rootMsg read_root_message)
  | Req.listPosts =>
      match get_posts db with
      | Except.ok ps => (db, Response.postsList ps)
      | Except.error _ => (db, Response.serverError)
  | Req.createPost body now =>
      match validatePost body with
      | none => (db, Response.validationError)
      | some p =>
          match create_post p now db with
          | Except.ok (db₂, id) => (db₂, Response.created id "Post created!")
          | Except.error _ => (db, Response.serverError)
  | Req.stats =>
      match get_stats db with
      | Except.ok s => (db, Response.statsResp s.total_posts s.docker_magic)
      | Except.error _ => (db, Response.serverError)

/-- Final database state after serving a sequence of requests. -/
def runTrace (db : DB) : List Req → DB
  | [] => db
  | r :: rest => runTrace (step db r).1 rest

/-- Number of requests in a trace that were answered with a success
response of POST `/posts` (a row was inserted). -/
def countCreated (db : DB) : List Req → Nat
  | [] => 0
  | r :: rest =>
      (match (step db r).2 with
       | Response.created _ _ => 1
       | _ => 0) + countCreated (step db r).1 rest

/-- Points at which a request can fail against storage: not at all, when
opening the connection (`get_db()` raises), or when executing the query. -/
inductive FailPoint where
  | noFail
  | connectFail
  | queryFail
deriving Repr, DecidableEq

/-- Connection lifecycle events of one request. -/
inductive ConnEvent where
  | acquire
  | release
deriving Repr, DecidableEq

/-- Connection events of the `get_posts` handler, following its control
flow literally: `conn = get_db()` acquires; `cur.execute(...)` may raise,
in which case the exception propagates immediately and the trailing
`cur.close(); conn.close()` lines never run (the handler has no
try/finally and no context manager). -/
def get_posts_connEvents : FailPoint → List ConnEvent
  | FailPoint.connectFail => []
  | FailPoint.queryFail => [ConnEvent.acquire]
  | FailPoint.noFail => [ConnEvent.acquire, ConnEvent.release]

/-- Connection events of the `create_post` handler body; same line
structure as `get_posts`: acquire, execute (may raise), commit, close. -/
def create_post_connEvents : FailPoint → List ConnEvent
  | FailPoint.connectFail => []
  | FailPoint.queryFail => [ConnEvent.acquire]
  | FailPoint.noFail => [ConnEvent.acquire, ConnEvent.release]

/-- Connection events of the `get_stats` handler; same line structure as
`get_posts`. -/
def get_stats_connEvents : FailPoint → List ConnEvent
  | FailPoint.connectFail => []
  | FailPoint.queryFail => [ConnEvent.acquire]
  | FailPoint.noFail => [ConnEvent.acquire, ConnEvent.release]

/-- Connection events of the `read_root` handler: its body is a single
return of a literal dictionary and contains no `get_db()` call. -/
def read_root_connEvents : FailPoint → List ConnEvent :=
  fun _ => []

/-- A 101-character username, exceeding the `VARCHAR(100)` column. -/
def longName : String := String.mk (List.replicate 101 'a')

/-- A 101-character username whose excess character is a space: 100
letters followed by one trailing space, which `VARCHAR(100)` assignment
truncates rather than rejects. -/
def spacePadName : String := String.mk (List.replicate 100 'a' ++ [' '])

/-! ## Helper lemmas -/

theorem mem_take_cons_of_pos {α : Type _} (a : α) (t : List α) (n : Nat) (hn : 0 < n) :
    a ∈ List.take n (a :: t) := by
  cases n with
  | zero => exact absurd hn (Nat.lt_irrefl 0)
  | succ m => rw [List.take_succ_cons]; exact List.mem_cons_self a _

theorem newest_row_mem_selectPosts (rows : List Row) (r : Row)
    (h : ∀ x ∈ rows, x.created_at < r.created_at) :
    r ∈ selectPosts (rows ++ [r]) := by
  unfold selectPosts
  have hperm := List.perm_insertionSort descLe (rows ++ [r])
  have hsorted := List.sorted_insertionSort descLe (rows ++ [r])
  have hmem : r ∈ List.insertionSort descLe (rows ++ [r]) :=
    hperm.mem_iff.mpr (List.mem_append_right rows (List.mem_singleton_self r))
  rcases hs : List.insertionSort descLe (rows ++ [r]) with _ | ⟨a, t⟩
  · rw [hs] at hmem
    exact absurd hmem (List.not_mem_nil r)
  · rw [hs] at hmem hsorted hperm
    have ha : a = r := by
      rcases List.mem_cons.mp hmem with he | htl
      · exact he.symm
      · have hle : descLe a r := (List.pairwise_cons.mp hsorted).1 r htl
        have hain : a ∈ rows ++ [r] := hperm.subset (List.mem_cons_self a t)
        rcases List.mem_append.mp hain with hr | hr
        · exact absurd (Nat.lt_of_lt_of_le (h a hr) hle) (Nat.lt_irrefl _)
        · exact List.mem_singleton.mp hr
    subst ha
    exact mem_take_cons_of_pos a t 50 (by decide)

theorem rows_length_step (db : DB) (r : Req) :
    (step db r).1.rows.length =
      db.rows.length +
        (match (step db r).2 with | Response.created _ _ => 1 | _ => 0) := by
  cases r with
  | root => rfl
  | listPosts =>
      simp only [step]
      split <;> rfl
  | stats =>
      simp only [step]
      split <;> rfl
  | createPost body now =>
      rcases hv : validatePost body with _ | p
      · simp [step, hv]
      · by_cases ht : db.tableExists
        · rcases hc : varcharCast 100 p.username with e | stored
          · simp [step, hv, create_post, insertPost, ht, hc]
          · simp [step, hv, create_post, insertPost, ht, hc]
        · simp [step, hv, create_post, insertPost, ht]

theorem stats_counts_trace (db : DB) (tr : List Req) :
    (runTrace db tr).rows.length = db.rows.length + countCreated db tr := by
  induction tr generalizing db with
  | nil => simp [runTrace, countCreated]
  | cons r rest ih =>
      simp only [runTrace, countCreated]
      rw [ih (step db r).1, rows_length_step db r, Nat.add_assoc]

/-! ## Claims -/

/-- C1: for every database state, the list-posts operation (GET /posts)
returns at most 50 posts, sorted by `created_at` descending (newest
first), each rendered with fields `id`, `username`, `content`, and
`created_at` serialized as a string. -/
theorem c1_list_posts_spec (db : DB) :
    (selectPosts db.rows).length ≤ 50 ∧
    List.Pairwise descLe (selectPosts db.rows) ∧
    get_posts { db with tableExists := true } =
      Except.ok ((selectPosts db.rows).map renderPost) ∧
    ∀ r : Row, renderPost r = ⟨r.id, r.username, r.content, toString r.created_at⟩ := by
  refine ⟨?_, ?_, ?_, fun r => rfl⟩
  · exact List.length_take_le 50 (List.insertionSort descLe db.rows)
  · exact List.Pairwise.sublist (List.take_sublist 50 _)
      (List.sorted_insertionSort descLe db.rows)
  · simp [get_posts]

/-- C3: a create-post request whose body is missing the `username` field,
missing the `content` field, or supplying either field with a non-string
value fails pydantic validation, is answered with a validation (client)
error, and leaves the database — in particular the posts table —
completely unchanged. -/
theorem c3_validation_rejects_before_storage (db : DB) (body : JsonBody) (now : Nat)
    (h : isStrField (lookupField body "username") = false ∨
         isStrField (lookupField body "content") = false) :
    validatePost body = none ∧
    step db (Req.createPost body now) = (db, Response.validationError) := by
  have hv : validatePost body = none := by
    unfold validatePost
    rcases hu : lookupField body "username" with _ | vu
    · rcases hc : lookupField body "content" with _ | vc
      · rfl
      · cases vc <;> rfl
    · rcases hc : lookupField body "content" with _ | vc
      · cases vu <;> rfl
      · cases vu <;> cases vc <;>
          first
          | rfl
          | (exfalso; simp [isStrField, hu, hc] at h)
  exact ⟨hv, by simp [step, hv]⟩

/-- C3 witness: a body carrying only `content` is rejected with a
validation error and the database is untouched. -/
theorem c3_validation_witness :
    validatePost [("content", JsonVal.str "hi")] = none ∧
    step (startup freshDB) (Req.createPost [("content", JsonVal.str "hi")] 0) =
      (startup freshDB, Response.validationError) :=
  c3_validation_rejects_before_storage (startup freshDB) [("content", JsonVal.str "hi")] 0
    (Or.inl (by decide))

/-- C5: the startup schema bootstrap is idempotent — running it twice
from any state equals running it once, it leaves a state that already
has the table unchanged, and after it the table exists. -/
theorem c5_startup_idempotent (db : DB) :
    startup (startup db) = startup db ∧
    startup { db with tableExists := true } = { db with tableExists := true } ∧
    (startup db).tableExists = true := by
  by_cases h : db.tableExists <;> simp [startup, h]

/-- C6: no operation updates or deletes an existing row — the three GET
handlers leave the database unchanged, and create-post either leaves the
rows unchanged (failure) or appends exactly one new row after all
existing ones. -/
theorem c6_no_update_or_delete (db : DB) (body : JsonBody) (now : Nat) :
    (step db Req.root).1 = db ∧
    (step db Req.listPosts).1 = db ∧
    (step db Req.stats).1 = db ∧
    ((step db (Req.createPost body now)).1.rows = db.rows ∨
      ∃ r : Row, (step db (Req.createPost body now)).1.rows = db.rows ++ [r]) := by
  refine ⟨rfl, ?_, ?_, ?_⟩
  · simp only [step]
    split <;> rfl
  · simp only [step]
    split <;> rfl
  · rcases hv : validatePost body with _ | p
    · left
      simp [step, hv]
    · by_cases ht : db.tableExists
      · rcases hc : varcharCast 100 p.username with e | stored
        · left
          simp [step, hv, create_post, insertPost, ht, hc]
        · right
          refine ⟨⟨db.nextId, stored, p.content, now⟩, ?_⟩
          simp [step, hv, create_post, insertPost, ht, hc]
      · left
        simp [step, hv, create_post, insertPost, ht]

/-- C7 counterexample: in the query-failure case the `get_posts` handler
has acquired the connection but never releases it — the claim that the
connection is released both on success and on failure is false. -/
theorem c7_counterexample :
    ConnEvent.acquire ∈ get_posts_connEvents FailPoint.queryFail ∧
    ConnEvent.release ∉ get_posts_connEvents FailPoint.queryFail := by
  decide

/-- C7 (amended): each of the three storage-backed handlers releases its
connection exactly when it runs to completion; when the query raises
after acquisition the connection is not released (the handlers have no
try/finally), and when connecting fails no connection was acquired. -/
theorem c7_connection_release (fp : FailPoint) :
    (ConnEvent.release ∈ get_posts_connEvents fp ↔ fp = FailPoint.noFail) ∧
    (ConnEvent.release ∈ create_post_connEvents fp ↔ fp = FailPoint.noFail) ∧
    (ConnEvent.release ∈ get_stats_connEvents fp ↔ fp = FailPoint.noFail) ∧
    (ConnEvent.acquire ∈ get_posts_connEvents fp ↔ fp ≠ FailPoint.connectFail) ∧
    (ConnEvent.acquire ∈ create_post_connEvents fp ↔ fp ≠ FailPoint.connectFail) ∧
    (ConnEvent.acquire ∈ get_stats_connEvents fp ↔ fp ≠ FailPoint.connectFail) := by
  cases fp <;> decide

/-- C9: GET / is deterministic and state-independent — it returns the
same static message for any two database states, never modifies the
state, and its handler performs no storage access (no connection event
at any failure point). -/
theorem c9_root_state_independent (db db₂ : DB) (fp : FailPoint) :
    (step db Req.root).2 = (step db₂ Req.root).2 ∧
    (step db Req.root).2 = Response.rootMsg "🐳 DevOps Social API is live!" ∧
    (step db Req.root).1 = db ∧
    read_root_connEvents fp = [] := by
  exact ⟨rfl, rfl, rfl, rfl⟩

/-- C2 counterexample: the input `{username: longName, content: "hi"}`
with a 101-character username is a valid (string, string) input — it
passes validation — yet create-post persists no row and returns a server
error instead of an assigned id, because the INSERT violates the
`VARCHAR(100)` column width. -/
theorem c2_counterexample :
    validatePost [("username", JsonVal.str longName), ("content", JsonVal.str "hi")] =
      some ⟨longName, "hi"⟩ ∧
    step (startup freshDB)
        (Req.createPost
          [("username", JsonVal.str longName), ("content", JsonVal.str "hi")] 1) =
      (startup freshDB, Response.serverError) ∧
    (step (startup freshDB)
        (Req.createPost
          [("username", JsonVal.str longName), ("content", JsonVal.str "hi")] 1)).1.rows =
      [] := by
  exact ⟨rfl, rfl, rfl⟩

/-- C2 (amended): for every validated input whose username fits the
`VARCHAR(100)` column (at most 100 characters), create-post persists
exactly one new row and returns the assigned id; the id is strictly
greater than every previously created post's id, and — when the new
row's timestamp is strictly later than all existing ones (no storage
clock skew) — a subsequent listing includes the new post. -/
theorem c2_create_then_list (db : DB) (u c : String) (now : Nat)
    (ht : db.tableExists = true)
    (hlen : u.length ≤ 100)
    (hid : ∀ r ∈ db.rows, r.id < db.nextId)
    (hclock : ∀ r ∈ db.rows, r.created_at < now) :
    ∃ db₂ : DB,
      create_post ⟨u, c⟩ now db = Except.ok (db₂, db.nextId) ∧
      db₂.rows = db.rows ++ [⟨db.nextId, u, c, now⟩] ∧
      (∀ r ∈ db.rows, r.id < db.nextId) ∧
      get_posts db₂ = Except.ok ((selectPosts db₂.rows).map renderPost) ∧
      renderPost ⟨db.nextId, u, c, now⟩ ∈ (selectPosts db₂.rows).map renderPost := by
  refine ⟨{ db with rows := db.rows ++ [⟨db.nextId, u, c, now⟩], nextId := db.nextId + 1 },
    ?_, rfl, hid, ?_, ?_⟩
  · simp [create_post, insertPost, varcharCast, ht, hlen]
  · simp [get_posts, ht]
  · exact List.mem_map_of_mem renderPost
      (newest_row_mem_selectPosts db.rows ⟨db.nextId, u, c, now⟩ hclock)

/-- C2 witness: on the freshly bootstrapped database, creating the post
`{username: "alice", content: "hi"}` at clock 1 yields id 1 and the post
appears in the subsequent listing. -/
theorem c2_create_then_list_witness :
    ∃ db₂ : DB,
      create_post ⟨"alice", "hi"⟩ 1 (startup freshDB) =
        Except.ok (db₂, (startup freshDB).nextId) ∧
      db₂.rows = (startup freshDB).rows ++
        [⟨(startup freshDB).nextId, "alice", "hi", 1⟩] ∧
      (∀ r ∈ (startup freshDB).rows, r.id < (startup freshDB).nextId) ∧
      get_posts db₂ = Except.ok ((selectPosts db₂.rows).map renderPost) ∧
      renderPost ⟨(startup freshDB).nextId, "alice", "hi", 1⟩ ∈
        (selectPosts db₂.rows).map renderPost :=
  c2_create_then_list (startup freshDB) "alice" "hi" 1 rfl (by decide)
    (by decide) (by decide)

/-- C4: stats returns the number of rows in the posts table together with
the constant field `docker_magic = "🐳✨"`; on the freshly bootstrapped
database it reports 0; over any request trace from the fresh database the
row count equals the number of successful create-post requests; and no
single request ever decreases the row count. -/
theorem c4_stats_spec (db : DB) (r : Req) (tr : List Req) :
    get_stats { db with tableExists := true } =
      Except.ok ⟨db.rows.length, "🐳✨"⟩ ∧
    get_stats (startup freshDB) = Except.ok ⟨0, "🐳✨"⟩ ∧
    (runTrace (startup freshDB) tr).rows.length =
      countCreated (startup freshDB) tr ∧
    db.rows.length ≤ (step db r).1.rows.length := by
  refine ⟨by simp [get_stats], rfl, ?_, ?_⟩
  · simpa [startup, freshDB] using stats_counts_trace (startup freshDB) tr
  · rw [rows_length_step db r]
    exact Nat.le_add_right _ _

/-- C8: starting from the freshly bootstrapped database, POST /posts
with body `{"username": "alice", "content": "hello"}` returns
`{"id": 1, "message": "Post created!"}`, and a subsequent GET /posts
returns exactly that one post with its timestamp serialized as a
string. -/
theorem c8_first_post_scenario (now : Nat) :
    step (startup freshDB)
        (Req.createPost
          [("username", JsonVal.str "alice"), ("content", JsonVal.str "hello")] now) =
      (⟨true, [⟨1, "alice", "hello", now⟩], 2⟩, Response.created 1 "Post created!") ∧
    step (⟨true, [⟨1, "alice", "hello", now⟩], 2⟩ : DB) Req.listPosts =
      (⟨true, [⟨1, "alice", "hello", now⟩], 2⟩,
        Response.postsList [⟨1, "alice", "hello", toString now⟩]) := by
  exact ⟨rfl, rfl⟩

/-- C10 counterexample: a 101-character username whose final character is
a space passes validation, and the INSERT succeeds — PostgreSQL truncates
the all-space excess rather than erroring — so the row is inserted and
the request answered with the created response, refuting the claim that
every over-length username surfaces as a server error with no row
inserted. -/
theorem c10_counterexample :
    spacePadName.length = 101 ∧
    validatePost
        [("username", JsonVal.str spacePadName), ("content", JsonVal.str "ok")] =
      some ⟨spacePadName, "ok"⟩ ∧
    step (startup freshDB)
        (Req.createPost
          [("username", JsonVal.str spacePadName), ("content", JsonVal.str "ok")] 2) =
      (⟨true, [⟨1, String.mk (List.replicate 100 'a'), "ok", 2⟩], 2⟩,
        Response.created 1 "Post created!") := by
  exact ⟨rfl, rfl, rfl⟩

/-- C10 (amended): a create-post request whose username exceeds 100
characters passes request validation (the application imposes no length
check) and reaches the storage layer; there, if any excess character
beyond the first 100 is not a space, the INSERT fails on the
`VARCHAR(100)` column and the request surfaces as a server error with
the database unchanged (no row inserted); if the excess characters are
all spaces, PostgreSQL truncates the value to its first 100 characters
and inserts the row, returning the assigned id. -/
theorem c10_long_username_outcome (db : DB) (body : JsonBody) (now : Nat)
    (p : Post)
    (hv : validatePost body = some p)
    (hlen : 100 < p.username.length)
    (ht : db.tableExists = true) :
    ((p.username.data.drop 100).all (fun ch => ch == ' ') = false →
      step db (Req.createPost body now) = (db, Response.serverError)) ∧
    ((p.username.data.drop 100).all (fun ch => ch == ' ') = true →
      step db (Req.createPost body now) =
        ({ db with rows := db.rows ++ [⟨db.nextId, String.mk (p.username.data.take 100), p.content, now⟩], nextId := db.nextId + 1 },
          Response.created db.nextId "Post created!")) := by
  have hnle : ¬ p.username.length ≤ 100 := Nat.not_le.mpr hlen
  constructor
  · intro hsp
    simp [step, hv, create_post, insertPost, varcharCast, hnle, ht, hsp]
  · intro hsp
    simp [step, hv, create_post, insertPost, varcharCast, hnle, ht, hsp]

/-- C10 witness: for the all-letter 101-character username the excess is
not all spaces, so the request is answered with a server error and the
freshly bootstrapped database stays unchanged. -/
theorem c10_long_username_outcome_witness :
    ((longName.data.drop 100).all (fun ch => ch == ' ') = false →
      step (startup freshDB)
          (Req.createPost
            [("username", JsonVal.str longName), ("content", JsonVal.str "ok")] 2) =
        (startup freshDB, Response.serverError)) ∧
    ((longName.data.drop 100).all (fun ch => ch == ' ') = true →
      step (startup freshDB)
          (Req.createPost
            [("username", JsonVal.str longName), ("content", JsonVal.str "ok")] 2) =
        ({ startup freshDB with rows := (startup freshDB).rows ++ [⟨(startup freshDB).nextId, String.mk (longName.data.take 100), "ok", 2⟩], nextId := (startup freshDB).nextId + 1 },
          Response.created (startup freshDB).nextId "Post created!")) :=
  c10_long_username_outcome (startup freshDB)
    [("username", JsonVal.str longName), ("content", JsonVal.str "ok")] 2
    ⟨longName, "ok"⟩ rfl (by decide) rfl
